import Mathlib

/-!
Verification of the auth-server request handlers (src/handlers/token.ts,
src/handlers/user.ts, src/middleware/auth.ts) against their specification.

The embedding models JavaScript runtime values and the handler logic
directly from the TypeScript source.  External collaborators (the jwt
library decode, the Cognito identity provider) are modelled as oracles
carried in a context record; everything the repository itself computes is
translated as executable Lean definitions.
-/

namespace AuthServer

/-- Exact decimal number: the value man / 10 ^ scale.  JavaScript rounds
numbers to IEEE doubles; this embedding keeps them exact instead, and no
behavior checked here depends on rounding. -/
structure JsNum where
  man : Int
  scale : Nat
  deriving DecidableEq

/-- The integer n as a JsNum. -/
def JsNum.ofInt (n : Int) : JsNum := ⟨n, 0⟩

/-- Comparison of a JsNum with an integer, as JavaScript computes x < n. -/
def JsNum.ltInt (x : JsNum) (n : Int) : Bool :=
  decide (x.man < n * (10 : Int) ^ x.scale)

/-- JavaScript/JSON value as produced by JSON.parse. -/
inductive Json where
  | null : Json
  | bool (b : Bool) : Json
  | num (q : JsNum) : Json
  | str (s : String) : Json
  | arr (elems : List Json) : Json
  | obj (fields : List (String × Json)) : Json

/-- Result of a JavaScript property read: either undefined or a value. -/
inductive JsVal where
  | undefined : JsVal
  | val (j : Json) : JsVal

/-- JavaScript truthiness of a JSON value (null, false, 0 and the empty
string are falsy; objects and arrays are always truthy). -/
def Json.truthy : Json → Bool
  | .null => false
  | .bool b => b
  | .num q => decide (q.man ≠ 0)
  | .str s => !s.isEmpty
  | .arr _ => true
  | .obj _ => true

/-- Truthiness of a property-read result; undefined is falsy. -/
def JsVal.truthy : JsVal → Bool
  | .undefined => false
  | .val j => j.truthy

/-- Last binding of a key in an association list.  JSON.parse builds
objects by successive assignment, so a duplicated key keeps its last
occurrence. -/
def lookupLast {α : Type} : List (String × α) → String → Option α
  | [], _ => none
  | (k2, v) :: rest, k =>
    match lookupLast rest k with
    | some v2 => some v2
    | none => if k2 = k then some v else none

section JsonParsing

/-- Whitespace accepted by JSON.parse. -/
def isJsonWs (c : Char) : Bool := c = ' ' || c = '\t' || c = '\n' || c = '\r'

/-- Drop leading JSON whitespace. -/
def skipWs : List Char → List Char
  | [] => []
  | c :: cs => if isJsonWs c then skipWs cs else c :: cs

/-- Split off a maximal run of decimal digits. -/
def takeDigits : List Char → List Char × List Char
  | [] => ([], [])
  | c :: cs =>
    if c.isDigit then
      let p := takeDigits cs
      (c :: p.1, p.2)
    else ([], c :: cs)

/-- Value of a digit string. -/
def digitsToNat (ds : List Char) : Nat :=
  ds.foldl (fun n c => 10 * n + (c.toNat - 48)) 0

/-- Exact numeric value of a JSON number literal broken into sign, integer
digits, fraction digits and exponent. -/
def jsNumOfParts (neg : Bool) (intDigits fracDigits : List Char) (expVal : Int) : JsNum :=
  let mantissa : Int := (digitsToNat (intDigits ++ fracDigits) : Int)
  let m : Int := if neg then -mantissa else mantissa
  let e : Int := expVal - (fracDigits.length : Int)
  if 0 ≤ e then ⟨m * (10 : Int) ^ e.toNat, 0⟩ else ⟨m, (-e).toNat⟩

/-- Parse the optional fraction part of a JSON number. -/
def parseFrac (cs : List Char) : Option (List Char × List Char) :=
  match cs with
  | '.' :: rest =>
    let p := takeDigits rest
    if p.1.isEmpty then none else some p
  | _ => some ([], cs)

/-- Parse the optional exponent part of a JSON number. -/
def parseExp (cs : List Char) : Option (Int × List Char) :=
  match cs with
  | c :: rest =>
    if c = 'e' || c = 'E' then
      let sp : Int × List Char :=
        match rest with
        | '+' :: r => (1, r)
        | '-' :: r => (-1, r)
        | _ => (1, rest)
      let p := takeDigits sp.2
      if p.1.isEmpty then none else some (sp.1 * (digitsToNat p.1 : Int), p.2)
    else some (0, cs)
  | [] => some (0, [])

/-- Parse a JSON number literal (RFC 8259 grammar: no leading zeros, a
fraction and exponent each require at least one digit). -/
def parseNumber (cs : List Char) : Option (JsNum × List Char) :=
  let sp : Bool × List Char :=
    match cs with
    | '-' :: rest => (true, rest)
    | _ => (false, cs)
  let ip := takeDigits sp.2
  match ip.1 with
  | [] => none
  | d0 :: drest =>
    if d0 = '0' && !drest.isEmpty then none
    else
      match parseFrac ip.2 with
      | none => none
      | some (fds, cs3) =>
        match parseExp cs3 with
        | none => none
        | some (e, cs4) => some (jsNumOfParts sp.1 ip.1 fds e, cs4)

/-- Value of a hexadecimal digit. -/
def hexDigit (c : Char) : Option Nat :=
  if c.isDigit then some (c.toNat - 48)
  else if 97 ≤ c.toNat && c.toNat ≤ 102 then some (c.toNat - 87)
  else if 65 ≤ c.toNat && c.toNat ≤ 70 then some (c.toNat - 55)
  else none

/-- Single-character JSON string escapes. -/
def escChar : Char → Option Char
  | '"' => some '"'
  | '\\' => some '\\'
  | '/' => some '/'
  | 'b' => some (Char.ofNat 8)
  | 'f' => some (Char.ofNat 12)
  | 'n' => some '\n'
  | 'r' => some '\r'
  | 't' => some '\t'
  | _ => none

/-- Parse the body of a JSON string literal (after the opening quote) up to
its closing quote.  Unpaired surrogate escapes, which JavaScript strings
admit, fall outside Lean Char and map to the zero character; no behavior
checked here depends on them. -/
def parseStrBody : Nat → List Char → Option (List Char × List Char)
  | 0, _ => none
  | _ + 1, [] => none
  | fuel + 1, c :: cs =>
    if c = '"' then some ([], cs)
    else if c = '\\' then
      match cs with
      | [] => none
      | e :: cs2 =>
        if e = 'u' then
          match cs2 with
          | h1 :: h2 :: h3 :: h4 :: cs3 =>
            match hexDigit h1, hexDigit h2, hexDigit h3, hexDigit h4 with
            | some a, some b, some c3, some d =>
              match parseStrBody fuel cs3 with
              | some (out, rest) => some (Char.ofNat (((a * 16 + b) * 16 + c3) * 16 + d) :: out, rest)
              | none => none
            | _, _, _, _ => none
          | _ => none
        else
          match escChar e with
          | some ec =>
            match parseStrBody fuel cs2 with
            | some (out, rest) => some (ec :: out, rest)
            | none => none
          | none => none
    else if c.toNat < 32 then none
    else
      match parseStrBody fuel cs with
      | some (out, rest) => some (c :: out, rest)
      | none => none

/-- Parse a JSON string literal positioned after its opening quote. -/
def parseStringLit (cs : List Char) : Option (String × List Char) :=
  match parseStrBody (cs.length + 1) cs with
  | some (out, rest) => some (String.mk out, rest)
  | none => none

mutual

/-- Parse one JSON value (leading whitespace already skipped). -/
def parseVal : Nat → List Char → Option (Json × List Char)
  | 0, _ => none
  | _ + 1, [] => none
  | fuel + 1, c :: cs =>
    if c = 'n' then
      match c :: cs with
      | 'n' :: 'u' :: 'l' :: 'l' :: rest => some (.null, rest)
      | _ => none
    else if c = 't' then
      match c :: cs with
      | 't' :: 'r' :: 'u' :: 'e' :: rest => some (.bool true, rest)
      | _ => none
    else if c = 'f' then
      match c :: cs with
      | 'f' :: 'a' :: 'l' :: 's' :: 'e' :: rest => some (.bool false, rest)
      | _ => none
    else if c = '"' then
      match parseStringLit cs with
      | some (s, rest) => some (.str s, rest)
      | none => none
    else if c = '[' then
      match skipWs cs with
      | ']' :: rest => some (.arr [], rest)
      | cs2 =>
        match parseElems fuel cs2 with
        | some (vs, rest) => some (.arr vs, rest)
        | none => none
    else if c = '\x7b' then
      match skipWs cs with
      | '\x7d' :: rest => some (.obj [], rest)
      | cs2 =>
        match parseMembers fuel cs2 with
        | some (kvs, rest) => some (.obj kvs, rest)
        | none => none
    else
      match parseNumber (c :: cs) with
      | some (q, rest) => some (.num q, rest)
      | none => none

/-- Parse the comma-separated elements of a nonempty JSON array. -/
def parseElems : Nat → List Char → Option (List Json × List Char)
  | 0, _ => none
  | fuel + 1, cs =>
    match parseVal fuel cs with
    | none => none
    | some (v, rest) =>
      match skipWs rest with
      | ',' :: rest2 =>
        match parseElems fuel (skipWs rest2) with
        | some (vs, rest3) => some (v :: vs, rest3)
        | none => none
      | ']' :: rest2 => some ([v], rest2)
      | _ => none

/-- Parse the comma-separated members of a nonempty JSON object. -/
def parseMembers : Nat → List Char → Option (List (String × Json) × List Char)
  | 0, _ => none
  | fuel + 1, cs =>
    match cs with
    | '"' :: cs1 =>
      match parseStringLit cs1 with
      | none => none
      | some (k, rest) =>
        match skipWs rest with
        | ':' :: rest2 =>
          match parseVal fuel (skipWs rest2) with
          | none => none
          | some (v, rest3) =>
            match skipWs rest3 with
            | ',' :: rest4 =>
              match parseMembers fuel (skipWs rest4) with
              | some (kvs, rest5) => some ((k, v) :: kvs, rest5)
              | none => none
            | '\x7d' :: rest4 => some ([(k, v)], rest4)
            | _ => none
        | _ => none
    | _ => none

end

/-- JSON.parse: whole-input parse of a JSON document.  The fuel bound is
generous; each recursive step consumes at least one input character. -/
def jsonParse (s : String) : Option Json :=
  match parseVal (2 * s.length + 2) (skipWs s.data) with
  | some (v, rest) => if (skipWs rest).isEmpty then some v else none
  | none => none

end JsonParsing

example : jsonParse "\x7b\x7d" = some (Json.obj []) := rfl

example : jsonParse " \x7b \"a\" : true , \"b\" : [1, null] \x7d " =
    some (Json.obj [("a", Json.bool true),
      ("b", Json.arr [Json.num ⟨1, 0⟩, Json.null])]) := rfl

example : jsonParse "not json" = none := rfl

example : jsonParse "" = none := rfl

example : jsonParse "-12.5e1" = some (Json.num ⟨-125, 0⟩) := rfl

example : jsonParse "0.25" = some (Json.num ⟨25, 2⟩) := rfl

example : jsonParse "01" = none := rfl

example : jsonParse "\"a\\u0041b\"" = some (Json.str "aAb") := rfl

/-! Runtime errors and thrown values. -/

/-- A JavaScript Error object: its name and message. -/
structure JsError where
  name : String
  message : String
  deriving DecidableEq

/-- A thrown JavaScript value: an Error instance, or any other value
(the handlers only test `instanceof Error` and read name and message). -/
inductive JsThrown where
  | js (e : JsError) : JsThrown
  | nonError : JsThrown
  deriving DecidableEq

/-- The value of new Error(message): name "Error". -/
def newError (msg : String) : JsThrown := .js ⟨"Error", msg⟩

/-- A TypeError raised by the runtime (e.g. property read on null). -/
def newTypeError (msg : String) : JsThrown := .js ⟨"TypeError", msg⟩

/-- Property read data[f] on a JSON value.  Reading from null throws a
TypeError; reading from an object takes its (last-assigned) binding;
reading from any other primitive or an array yields undefined, since none
of the property names used by the handlers (token, email, password,
firstName, lastName, refreshToken, oldPassword, newPassword) is a built-in
property of those values. -/
def jsGetField : Json → String → Except JsThrown JsVal
  | .null, f =>
    .error (newTypeError ("Cannot read properties of null (reading " ++ f ++ ")"))
  | .obj kvs, f =>
    .ok (match lookupLast kvs f with
      | some v => .val v
      | none => .undefined)
  | _, _ => .ok .undefined

/-! Response builder (createResponse / createErrorResponse in
src/middleware/auth.ts).  JSON.stringify is kept symbolic: the response
body is the payload value itself, with undefined-valued fields dropped as
stringify drops them. -/

/-- The fixed header set of every response. -/
def defaultHeaders : List (String × String) :=
  [("Content-Type", "application/json"),
   ("Access-Control-Allow-Origin", "*"),
   ("Access-Control-Allow-Headers", "Content-Type,Authorization"),
   ("Access-Control-Allow-Methods", "GET,POST,PUT,DELETE,OPTIONS")]

/-- Object spread of extra headers over the base set: base keys keep their
position but take an overriding value; keys only in extra follow. -/
def mergeHeaders (base extra : List (String × String)) : List (String × String) :=
  base.map (fun kv =>
    match lookupLast extra kv.1 with
    | some v => (kv.1, v)
    | none => kv)
  ++ extra.filter (fun kv => !((base.map Prod.fst).contains kv.1))

/-- The response envelope: status code, headers, body payload. -/
structure ApiResponse where
  statusCode : Int
  headers : List (String × String)
  body : Json

/-- Build an object whose fields with undefined values are dropped, as
JSON.stringify drops them. -/
def jsObjOpt (kvs : List (String × Option Json)) : Json :=
  .obj (kvs.filterMap (fun kv => kv.2.map (fun v => (kv.1, v))))

/-- createResponse: envelope with the fixed headers (merged with any
overrides) and the serialized payload. -/
def createResponse (statusCode : Int) (data : Json)
    (headers : List (String × String)) : ApiResponse :=
  ⟨statusCode, mergeHeaders defaultHeaders headers, data⟩

/-- createErrorResponse: invokes createResponse with an
error/message/details payload. -/
def createErrorResponse (statusCode : Int) (error : String) (message : String)
    (details : Option Json) : ApiResponse :=
  createResponse statusCode
    (jsObjOpt [("error", some (.str error)), ("message", some (.str message)),
      ("details", details)]) []

/-! Request model and request helpers (src/middleware/auth.ts). -/

/-- The subset of the API Gateway event headers the code reads: the
Authorization header under both its capitalizations. -/
structure EventHeaders where
  Authorization : Option String
  authorization : Option String

/-- The inbound API Gateway event: headers and raw body. -/
structure Event where
  headers : EventHeaders
  body : Option String

/-- parseRequestBody: JSON.parse of event.body || the empty-object
literal; a parse failure throws Error("Invalid JSON in request body"). -/
def parseRequestBody (ev : Event) : Except JsThrown Json :=
  let raw : String :=
    match ev.body with
    | some s => if s.isEmpty then "\x7b\x7d" else s
    | none => "\x7b\x7d"
  match jsonParse raw with
  | some v => .ok v
  | none => .error (newError "Invalid JSON in request body")

/-- Truthiness of an optional string, as JavaScript tests a possibly
undefined string (undefined and the empty string are falsy). -/
def strTruthy : Option String → Bool
  | none => false
  | some s => !s.isEmpty

/-- The value of event.headers.Authorization || event.headers.authorization. -/
def resolvedAuth (ev : Event) : Option String :=
  if strTruthy ev.headers.Authorization then ev.headers.Authorization
  else ev.headers.authorization

/-- Whether the first character list is an initial segment of the
second. -/
def charsLeading : List Char → List Char → Bool
  | [], _ => true
  | _ :: _, [] => false
  | a :: as, b :: bs => a == b && charsLeading as bs

/-- String.prototype.startsWith over the characters of the strings. -/
def strStartsWith (s pre : String) : Bool := charsLeading pre.data s.data

/-- String.prototype.substring(n) over the characters of the string. -/
def strDrop (s : String) (n : Nat) : String := String.mk (s.data.drop n)

/-- getAuthHeader: requires a truthy authorization header starting with
the literal prefix "Bearer ", and returns the substring from index 7. -/
def getAuthHeader (ev : Event) : Except JsThrown String :=
  match resolvedAuth ev with
  | none => .error (newError "Authorization header is required")
  | some s =>
    if s.isEmpty then .error (newError "Authorization header is required")
    else if !(strStartsWith s "Bearer ") then
      .error (newError "Authorization header must be a Bearer token")
    else .ok (strDrop s 7)

/-- The fields of requiredFields that are absent or falsy in data, in
order, as requiredFields.filter(field => !dataObj[field]) computes them;
the property read itself can throw (data null). -/
def filterMissing (data : Json) : List String → Except JsThrown (List String)
  | [] => .ok []
  | f :: fs =>
    match jsGetField data f with
    | .error e => .error e
    | .ok v =>
      match filterMissing data fs with
      | .error e => .error e
      | .ok rest => .ok (if v.truthy then rest else f :: rest)

/-- validateRequiredFields: throws Error("Missing required fields: ...")
listing every absent or falsy required field. -/
def validateRequiredFields (data : Json) (requiredFields : List String) :
    Except JsThrown Unit :=
  match filterMissing data requiredFields with
  | .error e => .error e
  | .ok [] => .ok ()
  | .ok missing =>
    .error (newError ("Missing required fields: " ++ String.intercalate ", " missing))

/-! External collaborators: the jwt library decode and the Cognito
identity provider, modelled as oracles in the request context. -/

/-- Decoded JWT payload as the handlers read it: the claims they access,
each possibly absent. -/
structure JwtPayload where
  sub : Option String
  email : Option String
  username : Option String
  iat : Option JsNum
  exp : Option JsNum
  token_use : Option String

/-- A command sent to the identity provider.  Username, password and
attribute values originating in the request body are arbitrary JavaScript
values; identifiers the code derives itself are strings. -/
inductive ProviderCall where
  | adminInitiateAuth (userPoolId clientId authFlow : String)
      (authParameters : List (String × JsVal))
  | adminCreateUser (userPoolId : String) (username : JsVal)
      (userAttributes : List (String × JsVal)) (messageAction : String)
      (temporaryPassword : JsVal)
  | adminSetUserPassword (userPoolId : String) (username : JsVal)
      (password : JsVal) (permanent : Bool)
  | adminGetUser (userPoolId username : String)
  | adminUpdateUserAttributes (userPoolId username : String)
      (userAttributes : List (String × JsVal))
  | adminDeleteUser (userPoolId username : String)

/-- The AuthenticationResult part of a provider response; every field may
be absent (the code reads them through non-null assertions, and
JSON.stringify drops the absent ones). -/
structure AuthenticationResult where
  accessToken : Option String
  idToken : Option String
  refreshToken : Option String
  expiresIn : Option JsNum
  tokenType : Option String

/-- A successful provider response, covering the fields any handler
reads. -/
structure ProviderResult where
  authenticationResult : Option AuthenticationResult
  userAttributes : Option (List (Option String × Option String))
  username : Option String
  enabled : Option Bool
  userStatus : Option String
  userCreateDate : Option JsNum
  userLastModifiedDate : Option JsNum

/-- Per-request context: the current time in seconds, the jwt decode
oracle, the provider oracle (indexed by how many commands the handler has
already sent), and the ambient pool configuration. -/
structure Ctx where
  now : Int
  decode : String → Option JwtPayload
  provider : Nat → ProviderCall → Except JsThrown ProviderResult
  userPoolId : String
  userPoolClientId : String

/-- jwt.decode applied to the token taken from the request body.  A
non-string argument is modelled as decoding to no payload. -/
def jwtDecodeVal (ctx : Ctx) : JsVal → Option JwtPayload
  | .val (.str s) => ctx.decode s
  | _ => none

/-! The shared catch-block shape: a chain of error-name tests, then the
INTERNAL_ERROR fallback. -/

/-- One recognized error name and the response it maps to. -/
structure CatchRule where
  name : String
  status : Int
  code : String
  message : String
  deriving DecidableEq

/-- A handler's catch block: match the thrown error's name against the
handler's rules in order; otherwise 500 INTERNAL_ERROR with the message as
details (or "Unknown error" for a thrown non-Error). -/
def mapCaught (table : List CatchRule) : JsThrown → ApiResponse
  | .js e =>
    match table.find? (fun r => r.name == e.name) with
    | some r => createErrorResponse r.status r.code r.message none
    | none =>
      createErrorResponse 500 "INTERNAL_ERROR" "Internal server error"
        (some (.str e.message))
  | .nonError =>
    createErrorResponse 500 "INTERNAL_ERROR" "Internal server error"
      (some (.str "Unknown error"))

/-- A handler: its try-block body (which can end in a thrown value) and
its catch table.  The body also reports the provider commands it sent. -/
structure HandlerDef where
  run : Event → Ctx → Except JsThrown ApiResponse × List ProviderCall
  table : List CatchRule

/-- Run a handler: its body's thrown values are routed through its catch
block, so a response is always produced. -/
def runHandler (h : HandlerDef) (ev : Event) (ctx : Ctx) :
    ApiResponse × List ProviderCall :=
  match h.run ev ctx with
  | (.ok r, calls) => (r, calls)
  | (.error e, calls) => (mapCaught h.table e, calls)

/-! Handlers of src/handlers/user.ts (auth operations). -/

/-- Input extraction of the login handler: parse the body and require
email and password. -/
def loginPrep (ev : Event) : Except JsThrown (JsVal × JsVal) :=
  match parseRequestBody ev with
  | .error e => .error e
  | .ok body =>
    match validateRequiredFields body ["email", "password"] with
    | .error e => .error e
    | .ok _ =>
      match jsGetField body "email" with
      | .error e => .error e
      | .ok email =>
        match jsGetField body "password" with
        | .error e => .error e
        | .ok password => .ok (email, password)

/-- The serialized AuthResponse of a full authentication result. -/
def authResponseJson (ar : AuthenticationResult) : Json :=
  jsObjOpt [("accessToken", ar.accessToken.map .str),
    ("idToken", ar.idToken.map .str),
    ("refreshToken", ar.refreshToken.map .str),
    ("expiresIn", ar.expiresIn.map .num),
    ("tokenType", ar.tokenType.map .str)]

/-- Try-block of the login handler. -/
def loginRun (ev : Event) (ctx : Ctx) :
    Except JsThrown ApiResponse × List ProviderCall :=
  match loginPrep ev with
  | .error e => (.error e, [])
  | .ok (email, password) =>
    let cmd := ProviderCall.adminInitiateAuth ctx.userPoolId ctx.userPoolClientId
      "ADMIN_NO_SRP_AUTH" [("USERNAME", email), ("PASSWORD", password)]
    match ctx.provider 0 cmd with
    | .error e => (.error e, [cmd])
    | .ok res =>
      match res.authenticationResult with
      | none =>
        (.ok (createErrorResponse 401 "AUTHENTICATION_FAILED" "Invalid credentials" none),
          [cmd])
      | some ar =>
        (.ok (createResponse 200 (.obj [("message", .str "Login successful"),
          ("data", authResponseJson ar)]) []), [cmd])

/-- Catch table of the login handler. -/
def loginTable : List CatchRule :=
  [⟨"UserNotConfirmedException", 400, "USER_NOT_CONFIRMED", "User email not confirmed"⟩,
   ⟨"NotAuthorizedException", 401, "INVALID_CREDENTIALS", "Invalid email or password"⟩,
   ⟨"UserNotFoundException", 404, "USER_NOT_FOUND", "User not found"⟩]

/-- The login handler. -/
def loginDef : HandlerDef := ⟨loginRun, loginTable⟩

/-- POST /auth/login. -/
def login (ev : Event) (ctx : Ctx) : ApiResponse × List ProviderCall :=
  runHandler loginDef ev ctx

/-- Input extraction of the register handler: parse the body, require
email and password, and read the optional name fields. -/
def registerPrep (ev : Event) : Except JsThrown (JsVal × JsVal × JsVal × JsVal) :=
  match parseRequestBody ev with
  | .error e => .error e
  | .ok body =>
    match validateRequiredFields body ["email", "password"] with
    | .error e => .error e
    | .ok _ =>
      match jsGetField body "email" with
      | .error e => .error e
      | .ok email =>
        match jsGetField body "firstName" with
        | .error e => .error e
        | .ok firstName =>
          match jsGetField body "lastName" with
          | .error e => .error e
          | .ok lastName =>
            match jsGetField body "password" with
            | .error e => .error e
            | .ok password => .ok (email, firstName, lastName, password)

/-- The user attribute list the register handler builds: email and an
unconditional email_verified = "true", then the optional name fields when
truthy. -/
def registerAttrs (email firstName lastName : JsVal) : List (String × JsVal) :=
  [("email", email), ("email_verified", JsVal.val (.str "true"))]
  ++ (if firstName.truthy then [("given_name", firstName)] else [])
  ++ (if lastName.truthy then [("family_name", lastName)] else [])

/-- Try-block of the register handler: AdminCreateUser with suppressed
invitation then AdminSetUserPassword, marking the email verified. -/
def registerRun (ev : Event) (ctx : Ctx) :
    Except JsThrown ApiResponse × List ProviderCall :=
  match registerPrep ev with
  | .error e => (.error e, [])
  | .ok (email, firstName, lastName, password) =>
    let createCmd := ProviderCall.adminCreateUser ctx.userPoolId email
      (registerAttrs email firstName lastName) "SUPPRESS" password
    match ctx.provider 0 createCmd with
    | .error e => (.error e, [createCmd])
    | .ok _ =>
      let setCmd := ProviderCall.adminSetUserPassword ctx.userPoolId email password true
      match ctx.provider 1 setCmd with
      | .error e => (.error e, [createCmd, setCmd])
      | .ok _ =>
        (.ok (createResponse 201 (.obj [("message", .str "User registered successfully"),
          ("data", jsObjOpt [("email", match email with
            | .val j => some j
            | .undefined => none)])]) []), [createCmd, setCmd])

/-- Catch table of the register handler. -/
def registerTable : List CatchRule :=
  [⟨"UsernameExistsException", 409, "USER_EXISTS", "User already exists"⟩,
   ⟨"InvalidPasswordException", 400, "INVALID_PASSWORD", "Password does not meet requirements"⟩]

/-- The register handler. -/
def registerDef : HandlerDef := ⟨registerRun, registerTable⟩

/-- POST /auth/register. -/
def register (ev : Event) (ctx : Ctx) : ApiResponse × List ProviderCall :=
  runHandler registerDef ev ctx

/-- Input extraction of the refresh handler. -/
def refreshTokenPrep (ev : Event) : Except JsThrown JsVal :=
  match parseRequestBody ev with
  | .error e => .error e
  | .ok body =>
    match validateRequiredFields body ["refreshToken"] with
    | .error e => .error e
    | .ok _ => jsGetField body "refreshToken"

/-- The serialized partial AuthResponse of a refresh result (no refresh
token reissued). -/
def refreshResponseJson (ar : AuthenticationResult) : Json :=
  jsObjOpt [("accessToken", ar.accessToken.map .str),
    ("idToken", ar.idToken.map .str),
    ("expiresIn", ar.expiresIn.map .num),
    ("tokenType", ar.tokenType.map .str)]

/-- Try-block of the refresh handler. -/
def refreshTokenRun (ev : Event) (ctx : Ctx) :
    Except JsThrown ApiResponse × List ProviderCall :=
  match refreshTokenPrep ev with
  | .error e => (.error e, [])
  | .ok rt =>
    let cmd := ProviderCall.adminInitiateAuth ctx.userPoolId ctx.userPoolClientId
      "REFRESH_TOKEN_AUTH" [("REFRESH_TOKEN", rt)]
    match ctx.provider 0 cmd with
    | .error e => (.error e, [cmd])
    | .ok res =>
      match res.authenticationResult with
      | none =>
        (.ok (createErrorResponse 401 "REFRESH_FAILED" "Invalid refresh token" none), [cmd])
      | some ar =>
        (.ok (createResponse 200 (.obj [("message", .str "Token refreshed successfully"),
          ("data", refreshResponseJson ar)]) []), [cmd])

/-- Catch table of the refresh handler. -/
def refreshTokenTable : List CatchRule :=
  [⟨"NotAuthorizedException", 401, "INVALID_REFRESH_TOKEN", "Invalid or expired refresh token"⟩]

/-- The refresh handler. -/
def refreshTokenDef : HandlerDef := ⟨refreshTokenRun, refreshTokenTable⟩

/-- POST /auth/refresh. -/
def refreshToken (ev : Event) (ctx : Ctx) : ApiResponse × List ProviderCall :=
  runHandler refreshTokenDef ev ctx

/-- Try-block of the logout handler: no provider interaction, constant
success. -/
def logoutRun (_ev : Event) (_ctx : Ctx) :
    Except JsThrown ApiResponse × List ProviderCall :=
  (.ok (createResponse 200 (.obj [("message", .str "Logout successful")]) []), [])

/-- The logout handler (its catch block recognizes no error name). -/
def logoutDef : HandlerDef := ⟨logoutRun, []⟩

/-- POST /auth/logout. -/
def logout (ev : Event) (ctx : Ctx) : ApiResponse × List ProviderCall :=
  runHandler logoutDef ev ctx

/-! Handler of src/handlers/token.ts: local token validation. -/

/-- The comparison decoded.exp < currentTime: an absent exp claim compares
as undefined, which is never less than a number. -/
def jsLtUndef (x : Option JsNum) (n : Int) : Bool :=
  match x with
  | none => false
  | some q => q.ltInt n

/-- The success payload of the validate handler. -/
def validTokenData (p : JwtPayload) : Json :=
  jsObjOpt [("sub", p.sub.map .str),
    ("email", p.email.map .str),
    ("tokenType", p.token_use.map .str),
    ("expiresAt", p.exp.map .num),
    ("issuedAt", p.iat.map .num)]

/-- The full success response of the validate handler. -/
def validTokenResponse (p : JwtPayload) : ApiResponse :=
  createResponse 200 (.obj [("message", .str "Token is valid"),
    ("data", validTokenData p)]) []

/-- Try-block of the validate handler.  The source decodes the token twice
(once with the complete option, once without) and null-checks both
results; the two decodes of the same token are null together, so the first
check (message "Invalid token format") is the one that can fire. -/
def validateRes (ev : Event) (ctx : Ctx) : Except JsThrown ApiResponse :=
  match parseRequestBody ev with
  | .error e => .error e
  | .ok body =>
    match jsGetField body "token" with
    | .error e => .error e
    | .ok tokenV =>
      if !tokenV.truthy then
        .ok (createErrorResponse 400 "MISSING_TOKEN" "Token is required" none)
      else
        match jwtDecodeVal ctx tokenV with
        | none => .ok (createErrorResponse 401 "INVALID_TOKEN" "Invalid token format" none)
        | some decoded =>
          if jsLtUndef decoded.exp ctx.now then
            .ok (createErrorResponse 401 "TOKEN_EXPIRED" "Token has expired" none)
          else if decoded.token_use != some "access" && decoded.token_use != some "id" then
            .ok (createErrorResponse 401 "INVALID_TOKEN_TYPE" "Invalid token type" none)
          else
            .ok (validTokenResponse decoded)

/-- Try-block of the validate handler, with its (empty) provider call
record. -/
def validateRun (ev : Event) (ctx : Ctx) :
    Except JsThrown ApiResponse × List ProviderCall :=
  (validateRes ev ctx, [])

/-- Catch table of the validate handler. -/
def validateTable : List CatchRule :=
  [⟨"JsonWebTokenError", 401, "INVALID_TOKEN", "Invalid token format"⟩,
   ⟨"TokenExpiredError", 401, "TOKEN_EXPIRED", "Token has expired"⟩]

/-- The validate handler. -/
def validateDef : HandlerDef := ⟨validateRun, validateTable⟩

/-- POST /token/validate. -/
def validate (ev : Event) (ctx : Ctx) : ApiResponse × List ProviderCall :=
  runHandler validateDef ev ctx

/-! User-management handlers of src/handlers/user.ts. -/

/-- The value of a || b for strings, where a may be undefined. -/
def jsOrStr (a : Option String) (b : String) : String :=
  match a with
  | some s => if s.isEmpty then b else s
  | none => b

/-- getUserFromToken: decode the bearer token and project sub and email
(falling back to the username claim, then the empty string).  A token that
does not decode makes the property reads throw a TypeError. -/
def getUserFromToken (ctx : Ctx) (token : String) :
    Except JsThrown (String × String) :=
  match ctx.decode token with
  | none => .error (newTypeError "Cannot read properties of null (reading sub)")
  | some d => .ok (jsOrStr d.sub "", jsOrStr d.email (jsOrStr d.username ""))

/-- The attribute map the getUser handler accumulates: attributes whose
Name and Value are both truthy, later occurrences overriding earlier
ones. -/
def collectAttrs (attrs : Option (List (Option String × Option String))) :
    List (String × String) :=
  (attrs.getD []).filterMap (fun a =>
    match a with
    | (some n, some v) => if n.isEmpty || v.isEmpty then none else some (n, v)
    | _ => none)

/-- The serialized CognitoUser projection of a provider AdminGetUser
response.  The two Date fields pass through the provider's value. -/
def cognitoUserJson (res : ProviderResult) (ua : List (String × String)) : Json :=
  jsObjOpt [("sub", res.username.map .str),
    ("email", (lookupLast ua "email").map .str),
    ("firstName", (lookupLast ua "given_name").map .str),
    ("lastName", (lookupLast ua "family_name").map .str),
    ("emailVerified", some (.bool (lookupLast ua "email_verified" == some "true"))),
    ("enabled", some (.bool (res.enabled.getD false))),
    ("userStatus", res.userStatus.map .str),
    ("createdDate", res.userCreateDate.map .num),
    ("lastModifiedDate", res.userLastModifiedDate.map .num)]

/-- Try-block of the getUser handler. -/
def getUserRun (ev : Event) (ctx : Ctx) :
    Except JsThrown ApiResponse × List ProviderCall :=
  match getAuthHeader ev with
  | .error e => (.error e, [])
  | .ok token =>
    match getUserFromToken ctx token with
    | .error e => (.error e, [])
    | .ok (_, email) =>
      let cmd := ProviderCall.adminGetUser ctx.userPoolId email
      match ctx.provider 0 cmd with
      | .error e => (.error e, [cmd])
      | .ok res =>
        (.ok (createResponse 200 (.obj [("message", .str "User retrieved successfully"),
          ("data", cognitoUserJson res (collectAttrs res.userAttributes))]) []), [cmd])

/-- Catch table shared by the getUser, updateUser and deleteUser
handlers. -/
def userNotFoundTable : List CatchRule :=
  [⟨"UserNotFoundException", 404, "USER_NOT_FOUND", "User not found"⟩]

/-- The getUser handler. -/
def getUserDef : HandlerDef := ⟨getUserRun, userNotFoundTable⟩

/-- GET /user/profile. -/
def getUser (ev : Event) (ctx : Ctx) : ApiResponse × List ProviderCall :=
  runHandler getUserDef ev ctx

/-- Try-block of the updateUser handler: collect the recognized body
fields that are not undefined; with none, fail NO_UPDATES without calling
the provider. -/
def updateUserRun (ev : Event) (ctx : Ctx) :
    Except JsThrown ApiResponse × List ProviderCall :=
  match getAuthHeader ev with
  | .error e => (.error e, [])
  | .ok token =>
    match getUserFromToken ctx token with
    | .error e => (.error e, [])
    | .ok (_, email) =>
      match parseRequestBody ev with
      | .error e => (.error e, [])
      | .ok body =>
        match jsGetField body "firstName" with
        | .error e => (.error e, [])
        | .ok firstName =>
          match jsGetField body "lastName" with
          | .error e => (.error e, [])
          | .ok lastName =>
            match jsGetField body "email" with
            | .error e => (.error e, [])
            | .ok emailField =>
              let userAttributes : List (String × JsVal) :=
                (match firstName with
                  | .val j => [("given_name", JsVal.val j)]
                  | .undefined => [])
                ++ (match lastName with
                  | .val j => [("family_name", JsVal.val j)]
                  | .undefined => [])
                ++ (match emailField with
                  | .val j => [("email", JsVal.val j)]
                  | .undefined => [])
              if userAttributes.isEmpty then
                (.ok (createErrorResponse 400 "NO_UPDATES" "No valid fields to update" none),
                  [])
              else
                let cmd := ProviderCall.adminUpdateUserAttributes ctx.userPoolId email
                  userAttributes
                match ctx.provider 0 cmd with
                | .error e => (.error e, [cmd])
                | .ok _ =>
                  (.ok (createResponse 200
                    (.obj [("message", .str "User updated successfully")]) []), [cmd])

/-- The updateUser handler. -/
def updateUserDef : HandlerDef := ⟨updateUserRun, userNotFoundTable⟩

/-- PUT /user/profile. -/
def updateUser (ev : Event) (ctx : Ctx) : ApiResponse × List ProviderCall :=
  runHandler updateUserDef ev ctx

/-- Try-block of the deleteUser handler. -/
def deleteUserRun (ev : Event) (ctx : Ctx) :
    Except JsThrown ApiResponse × List ProviderCall :=
  match getAuthHeader ev with
  | .error e => (.error e, [])
  | .ok token =>
    match getUserFromToken ctx token with
    | .error e => (.error e, [])
    | .ok (_, email) =>
      let cmd := ProviderCall.adminDeleteUser ctx.userPoolId email
      match ctx.provider 0 cmd with
      | .error e => (.error e, [cmd])
      | .ok _ =>
        (.ok (createResponse 200
          (.obj [("message", .str "User deleted successfully")]) []), [cmd])

/-- The deleteUser handler. -/
def deleteUserDef : HandlerDef := ⟨deleteUserRun, userNotFoundTable⟩

/-- DELETE /user/profile. -/
def deleteUser (ev : Event) (ctx : Ctx) : ApiResponse × List ProviderCall :=
  runHandler deleteUserDef ev ctx

/-- Try-block of the changePassword handler: set the new password
directly and permanently (the old password is not verified, as the source
notes). -/
def changePasswordRun (ev : Event) (ctx : Ctx) :
    Except JsThrown ApiResponse × List ProviderCall :=
  match getAuthHeader ev with
  | .error e => (.error e, [])
  | .ok token =>
    match getUserFromToken ctx token with
    | .error e => (.error e, [])
    | .ok (_, email) =>
      match parseRequestBody ev with
      | .error e => (.error e, [])
      | .ok body =>
        match validateRequiredFields body ["oldPassword", "newPassword"] with
        | .error e => (.error e, [])
        | .ok _ =>
          match jsGetField body "newPassword" with
          | .error e => (.error e, [])
          | .ok newPassword =>
            let cmd := ProviderCall.adminSetUserPassword ctx.userPoolId
              (JsVal.val (.str email)) newPassword true
            match ctx.provider 0 cmd with
            | .error e => (.error e, [cmd])
            | .ok _ =>
              (.ok (createResponse 200
                (.obj [("message", .str "Password changed successfully")]) []), [cmd])

/-- Catch table of the changePassword handler. -/
def changePasswordTable : List CatchRule :=
  [⟨"UserNotFoundException", 404, "USER_NOT_FOUND", "User not found"⟩,
   ⟨"InvalidPasswordException", 400, "INVALID_PASSWORD", "Password does not meet requirements"⟩]

/-- The changePassword handler. -/
def changePasswordDef : HandlerDef := ⟨changePasswordRun, changePasswordTable⟩

/-- POST /user/change-password. -/
def changePassword (ev : Event) (ctx : Ctx) : ApiResponse × List ProviderCall :=
  runHandler changePasswordDef ev ctx

/-- All nine operation handlers. -/
def allHandlers : List HandlerDef :=
  [loginDef, registerDef, refreshTokenDef, logoutDef, validateDef,
   getUserDef, updateUserDef, deleteUserDef, changePasswordDef]

/-! Projections used to state the claims. -/

/-- The error code field of a response body, when present as a string. -/
def errCode (r : ApiResponse) : Option String :=
  match r.body with
  | .obj kvs =>
    match lookupLast kvs "error" with
    | some (.str s) => some s
    | _ => none
  | _ => none

/-- Whether a body field is absent or falsy in an object. -/
def fieldMissing (kvs : List (String × Json)) (f : String) : Bool :=
  match lookupLast kvs f with
  | some v => !v.truthy
  | none => true

/-- The absent-or-falsy required fields of an object, in order. -/
def missingOf (kvs : List (String × Json)) (fields : List String) : List String :=
  fields.filter (fun f => fieldMissing kvs f)

/-! Claim theorems. -/

/-- C5: for every input, the logout operation issues no provider call and
returns status 200 with body message "Logout successful", regardless of
provider state. -/
theorem logout_constant (ev : Event) (ctx : Ctx) :
    logout ev ctx =
      (createResponse 200 (.obj [("message", .str "Logout successful")]) [], []) := rfl

/-- C7: parseRequestBody returns the parsed structure of every valid JSON
body, fails with the malformed-input error on every nonempty non-JSON
body, and treats an absent or empty body as the empty object. -/
theorem parseRequestBody_spec (ev : Event) :
    (∀ s v, ev.body = some s → jsonParse s = some v → parseRequestBody ev = .ok v) ∧
    (∀ s, ev.body = some s → s ≠ "" → jsonParse s = none →
      parseRequestBody ev = .error (newError "Invalid JSON in request body")) ∧
    ((ev.body = none ∨ ev.body = some "") → parseRequestBody ev = .ok (Json.obj [])) := by
  refine ⟨?_, ?_, ?_⟩
  · intro s v hb hp
    by_cases he : s = ""
    · subst he
      exact absurd hp (by simp [jsonParse, skipWs, parseVal])
    · have hf : s.isEmpty = false := by
        rw [Bool.eq_false_iff]
        intro hc
        exact he ((String.isEmpty_iff s).mp hc)
      simp [parseRequestBody, hb, hf, hp]
  · intro s hb hne hp
    have hf : s.isEmpty = false := by
      rw [Bool.eq_false_iff]
      intro hc
      exact hne ((String.isEmpty_iff s).mp hc)
    simp [parseRequestBody, hb, hf, hp]
  · intro h
    rcases h with h | h <;> (simp only [parseRequestBody, h]; rfl)

/-- C7 witness: a concrete valid JSON body parses to its structure. -/
theorem parseRequestBody_spec_witness :
    parseRequestBody ⟨⟨none, none⟩, some "\x7b\"a\":true\x7d"⟩ =
      .ok (Json.obj [("a", .bool true)]) :=
  (parseRequestBody_spec _).1 _ _ rfl rfl

/-- The missing-field scan of validateRequiredFields never throws on an
object and computes exactly the absent-or-falsy fields in order. -/
theorem filterMissing_obj (kvs : List (String × Json)) (fields : List String) :
    filterMissing (Json.obj kvs) fields = .ok (missingOf kvs fields) := by
  induction fields with
  | nil => rfl
  | cons f fs ih =>
    simp only [filterMissing, jsGetField, missingOf, List.filter, ih]
    cases h : lookupLast kvs f with
    | none => simp [Except.bind, fieldMissing, h, JsVal.truthy, missingOf]
    | some v =>
      simp only [Except.bind, fieldMissing, h, JsVal.truthy, missingOf]
      cases hv : v.truthy <;> simp [hv]

/-- C8: on every object and every required-field list,
validateRequiredFields succeeds when no named field is absent or falsy,
and otherwise fails with the error enumerating every absent-or-falsy
named field (not only the first). -/
theorem validateRequiredFields_spec (kvs : List (String × Json)) (fields : List String) :
    (missingOf kvs fields = [] →
      validateRequiredFields (Json.obj kvs) fields = .ok ()) ∧
    (missingOf kvs fields ≠ [] →
      validateRequiredFields (Json.obj kvs) fields =
        .error (newError ("Missing required fields: " ++
          String.intercalate ", " (missingOf kvs fields))) ∧
      ∀ f ∈ fields, fieldMissing kvs f = true → f ∈ missingOf kvs fields) := by
  constructor
  · intro h
    simp [validateRequiredFields, filterMissing_obj, h]
  · intro h
    refine ⟨?_, ?_⟩
    · rw [validateRequiredFields, filterMissing_obj]
      cases hm : missingOf kvs fields with
      | nil => exact absurd hm h
      | cons m ms => rfl
    · intro f hf hmiss
      exact List.mem_filter.mpr ⟨hf, hmiss⟩

/-- C8 witness: the empty object with required fields a and b fails with
an error listing both. -/
theorem validateRequiredFields_spec_witness :
    validateRequiredFields (Json.obj []) ["a", "b"] =
      .error (newError "Missing required fields: a, b") ∧
    "a" ∈ missingOf [] ["a", "b"] ∧ "b" ∈ missingOf [] ["a", "b"] :=
  ⟨((validateRequiredFields_spec [] ["a", "b"]).2 (by decide)).1,
   ((validateRequiredFields_spec [] ["a", "b"]).2 (by decide)).2 "a" (by decide) (by decide),
   ((validateRequiredFields_spec [] ["a", "b"]).2 (by decide)).2 "b" (by decide) (by decide)⟩

/-- C6 counterexample: a header set carrying an authorization entry with
the empty-string value (which does not start with "Bearer ") fails with
the missing-credential error, not the malformed-credential error the
claim requires. -/
theorem getAuthHeader_counterexample :
    getAuthHeader ⟨⟨none, some ""⟩, none⟩ =
      .error (newError "Authorization header is required") ∧
    getAuthHeader ⟨⟨none, some ""⟩, none⟩ ≠
      .error (newError "Authorization header must be a Bearer token") := by
  refine ⟨rfl, ?_⟩
  intro h
  rw [show getAuthHeader ⟨⟨none, some ""⟩, none⟩ =
    .error (newError "Authorization header is required") from rfl] at h
  simp [newError] at h

/-- C6 as amended: an absent or empty (falsy) authorization value fails
with the missing-credential error; a nonempty value not starting with
"Bearer " fails with the malformed-credential error; otherwise the
substring after the 7-character prefix is returned. -/
theorem getAuthHeader_spec (ev : Event) :
    (strTruthy (resolvedAuth ev) = false →
      getAuthHeader ev = .error (newError "Authorization header is required")) ∧
    (∀ s, resolvedAuth ev = some s → s ≠ "" → strStartsWith s "Bearer " = false →
      getAuthHeader ev = .error (newError "Authorization header must be a Bearer token")) ∧
    (∀ s, resolvedAuth ev = some s → strStartsWith s "Bearer " = true →
      getAuthHeader ev = .ok (strDrop s 7)) := by
  refine ⟨?_, ?_, ?_⟩
  · intro h
    unfold getAuthHeader
    cases hr : resolvedAuth ev with
    | none => rfl
    | some s =>
      rw [hr] at h
      cases hi : s.isEmpty with
      | true => simp [hi]
      | false => simp [strTruthy, hi] at h
  · intro s hr hne hsw
    have hf : s.isEmpty = false := by
      rw [Bool.eq_false_iff]
      intro hc
      exact hne ((String.isEmpty_iff s).mp hc)
    unfold getAuthHeader
    rw [hr]
    simp [hf, hsw]
  · intro s hr hsw
    have hne : s ≠ "" := by
      intro he
      subst he
      exact absurd hsw (by decide)
    have hf : s.isEmpty = false := by
      rw [Bool.eq_false_iff]
      intro hc
      exact hne ((String.isEmpty_iff s).mp hc)
    unfold getAuthHeader
    rw [hr]
    simp [hf, hsw]

/-- C6 amended-claim witness: the bearer header "Bearer abc" yields the
credential "abc". -/
theorem getAuthHeader_spec_witness :
    getAuthHeader ⟨⟨some "Bearer abc", none⟩, none⟩ = .ok "abc" :=
  (getAuthHeader_spec _).2.2 "Bearer abc" rfl rfl

/-- C1: on every validate request whose body carries a (truthy, string)
token that decodes to a payload, an exp in the past yields TOKEN_EXPIRED
(401) regardless of token_use (the expiration check runs first); with a
non-expired exp, a token_use other than "access" and "id" yields
INVALID_TOKEN_TYPE (401); otherwise the 200 envelope carries the
payload's sub, email, tokenType, expiresAt and issuedAt. -/
theorem validate_spec (ev : Event) (ctx : Ctx) (b : Json) (t : String) (p : JwtPayload)
    (hb : parseRequestBody ev = Except.ok b)
    (ht : jsGetField b "token" = Except.ok (JsVal.val (Json.str t)))
    (htr : t ≠ "")
    (hd : ctx.decode t = some p) :
    (jsLtUndef p.exp ctx.now = true →
      validate ev ctx =
        (createErrorResponse 401 "TOKEN_EXPIRED" "Token has expired" none, [])) ∧
    (jsLtUndef p.exp ctx.now = false →
      p.token_use ≠ some "access" → p.token_use ≠ some "id" →
      validate ev ctx =
        (createErrorResponse 401 "INVALID_TOKEN_TYPE" "Invalid token type" none, [])) ∧
    (jsLtUndef p.exp ctx.now = false →
      (p.token_use = some "access" ∨ p.token_use = some "id") →
      validate ev ctx = (validTokenResponse p, [])) := by
  have hie : t.isEmpty = false := by
    rw [Bool.eq_false_iff]
    intro hc
    exact htr ((String.isEmpty_iff t).mp hc)
  refine ⟨?_, ?_, ?_⟩
  · intro hlt
    have hres : validateRes ev ctx =
        .ok (createErrorResponse 401 "TOKEN_EXPIRED" "Token has expired" none) := by
      simp [validateRes, hb, ht, JsVal.truthy, Json.truthy, hie, jwtDecodeVal, hd, hlt]
    simp [validate, runHandler, validateDef, validateRun, hres]
  · intro hlt hna hni
    have hres : validateRes ev ctx =
        .ok (createErrorResponse 401 "INVALID_TOKEN_TYPE" "Invalid token type" none) := by
      simp [validateRes, hb, ht, JsVal.truthy, Json.truthy, hie, jwtDecodeVal, hd, hlt,
        hna, hni]
    simp [validate, runHandler, validateDef, validateRun, hres]
  · intro hlt hu
    have hres : validateRes ev ctx = .ok (validTokenResponse p) := by
      rcases hu with hu | hu <;>
        simp [validateRes, hb, ht, JsVal.truthy, Json.truthy, hie, jwtDecodeVal, hd, hlt, hu]
    simp [validate, runHandler, validateDef, validateRun, hres]

/-- Decode oracle of the validate witnesses: one known token. -/
def decodeOracle1 : String → Option JwtPayload := fun s =>
  if s = "tok" then
    some ⟨some "sub-1", some "user@example.com", none, some ⟨10, 0⟩, some ⟨100, 0⟩, some "id"⟩
  else none

/-- C1 witness: a concrete id token with a future exp validates to the
success envelope. -/
theorem validate_spec_witness :
    validate ⟨⟨none, none⟩, some "\x7b\"token\":\"tok\"\x7d"⟩
      ⟨50, decodeOracle1, fun _ _ => .error .nonError, "pool-1", "client-1"⟩ =
      (validTokenResponse
        ⟨some "sub-1", some "user@example.com", none, some ⟨10, 0⟩, some ⟨100, 0⟩,
          some "id"⟩, []) :=
  (validate_spec ⟨⟨none, none⟩, some "\x7b\"token\":\"tok\"\x7d"⟩
    ⟨50, decodeOracle1, fun _ _ => .error .nonError, "pool-1", "client-1"⟩
    (Json.obj [("token", Json.str "tok")]) "tok"
    ⟨some "sub-1", some "user@example.com", none, some ⟨10, 0⟩, some ⟨100, 0⟩, some "id"⟩
    rfl rfl (by decide) rfl).2.2 rfl (Or.inr rfl)

/-- C9: on every validate request whose token decodes to a payload with
no exp claim at all, the expiration comparison passes (undefined is never
less than the current time), TOKEN_EXPIRED is impossible, and the outcome
is decided by the token_use check alone. -/
theorem validate_no_exp_claim (ev : Event) (ctx : Ctx) (b : Json) (t : String) (p : JwtPayload)
    (hb : parseRequestBody ev = Except.ok b)
    (ht : jsGetField b "token" = Except.ok (JsVal.val (Json.str t)))
    (htr : t ≠ "")
    (hd : ctx.decode t = some p)
    (hexp : p.exp = none) :
    errCode (validate ev ctx).1 ≠ some "TOKEN_EXPIRED" ∧
    validate ev ctx =
      ((if p.token_use == some "access" || p.token_use == some "id"
        then validTokenResponse p
        else createErrorResponse 401 "INVALID_TOKEN_TYPE" "Invalid token type" none), []) := by
  have hie : t.isEmpty = false := by
    rw [Bool.eq_false_iff]
    intro hc
    exact htr ((String.isEmpty_iff t).mp hc)
  have hlt : jsLtUndef p.exp ctx.now = false := by rw [hexp]; rfl
  have hmain : validate ev ctx =
      ((if p.token_use == some "access" || p.token_use == some "id"
        then validTokenResponse p
        else createErrorResponse 401 "INVALID_TOKEN_TYPE" "Invalid token type" none), []) := by
    cases hc : (p.token_use == some "access" || p.token_use == some "id") with
    | true =>
      have hres : validateRes ev ctx = .ok (validTokenResponse p) := by
        simp only [Bool.or_eq_true, beq_iff_eq] at hc
        rcases hc with hu | hu <;>
          simp [validateRes, hb, ht, JsVal.truthy, Json.truthy, hie, jwtDecodeVal, hd, hlt, hu]
      simp [validate, runHandler, validateDef, validateRun, hres]
    | false =>
      have hres : validateRes ev ctx =
          .ok (createErrorResponse 401 "INVALID_TOKEN_TYPE" "Invalid token type" none) := by
        simp only [Bool.or_eq_false_iff, beq_eq_false_iff_ne] at hc
        simp [validateRes, hb, ht, JsVal.truthy, Json.truthy, hie, jwtDecodeVal, hd, hlt,
          hc.1, hc.2]
      simp [validate, runHandler, validateDef, validateRun, hres]
  refine ⟨?_, hmain⟩
  rw [hmain]
  cases hc : (p.token_use == some "access" || p.token_use == some "id") with
  | true =>
    have h1 : errCode (validTokenResponse p) = none := rfl
    simp [hc, h1]
  | false =>
    have h2 : errCode (createErrorResponse 401 "INVALID_TOKEN_TYPE" "Invalid token type" none) =
        some "INVALID_TOKEN_TYPE" := rfl
    simp [hc, h2]

/-- Decode oracle of the C9 witness: a refresh token without an exp
claim. -/
def decodeOracle2 : String → Option JwtPayload := fun s =>
  if s = "tok2" then some ⟨some "sub-2", some "u2@example.com", none, none, none, some "refresh"⟩
  else none

/-- The provider commands a handler reports are those of its try-block,
whether or not the block ended in a thrown value. -/
theorem runHandler_calls (h : HandlerDef) (ev : Event) (ctx : Ctx) :
    (runHandler h ev ctx).2 = (h.run ev ctx).2 := by
  unfold runHandler
  rcases hr : h.run ev ctx with ⟨ex, calls⟩
  cases ex <;> simp

/-- C9 witness: a decoded payload without exp and with token_use
"refresh" yields INVALID_TOKEN_TYPE, not TOKEN_EXPIRED. -/
theorem validate_no_exp_claim_witness :
    errCode (validate ⟨⟨none, none⟩, some "\x7b\"token\":\"tok2\"\x7d"⟩
      ⟨50, decodeOracle2, fun _ _ => .error .nonError, "pool-1", "client-1"⟩).1 ≠
      some "TOKEN_EXPIRED" :=
  (validate_no_exp_claim ⟨⟨none, none⟩, some "\x7b\"token\":\"tok2\"\x7d"⟩
    ⟨50, decodeOracle2, fun _ _ => .error .nonError, "pool-1", "client-1"⟩
    (Json.obj [("token", Json.str "tok2")]) "tok2"
    ⟨some "sub-2", some "u2@example.com", none, none, none, some "refresh"⟩
    rfl rfl (by decide) rfl rfl).1

/-- C4: on every update-profile request with a valid bearer header whose
token decodes, and whose parsed body has none of the fields firstName,
lastName and email, the handler returns NO_UPDATES (400) and sends no
provider command. -/
theorem updateUser_no_updates (ev : Event) (ctx : Ctx) (tok : String) (p : JwtPayload) (b : Json)
    (hh : getAuthHeader ev = Except.ok tok)
    (hd : ctx.decode tok = some p)
    (hb : parseRequestBody ev = Except.ok b)
    (h1 : jsGetField b "firstName" = Except.ok JsVal.undefined)
    (h2 : jsGetField b "lastName" = Except.ok JsVal.undefined)
    (h3 : jsGetField b "email" = Except.ok JsVal.undefined) :
    updateUser ev ctx =
      (createErrorResponse 400 "NO_UPDATES" "No valid fields to update" none, []) := by
  have hrun : updateUserRun ev ctx =
      (.ok (createErrorResponse 400 "NO_UPDATES" "No valid fields to update" none), []) := by
    simp [updateUserRun, hh, getUserFromToken, hd, hb, h1, h2, h3]
  simp [updateUser, runHandler, updateUserDef, hrun]

/-- C4 witness: an empty JSON body under a valid bearer token yields
NO_UPDATES with no provider call. -/
theorem updateUser_no_updates_witness :
    updateUser ⟨⟨some "Bearer tok", none⟩, some "\x7b\x7d"⟩
      ⟨0, decodeOracle1, fun _ _ => .error .nonError, "pool-1", "client-1"⟩ =
      (createErrorResponse 400 "NO_UPDATES" "No valid fields to update" none, []) :=
  updateUser_no_updates ⟨⟨some "Bearer tok", none⟩, some "\x7b\x7d"⟩
    ⟨0, decodeOracle1, fun _ _ => .error .nonError, "pool-1", "client-1"⟩
    "tok"
    ⟨some "sub-1", some "user@example.com", none, some ⟨10, 0⟩, some ⟨100, 0⟩, some "id"⟩
    (Json.obj []) rfl rfl rfl rfl rfl rfl

/-- The email_verified attribute is in every attribute list the register
handler builds. -/
theorem mem_registerAttrs (email firstName lastName : JsVal) :
    ("email_verified", JsVal.val (Json.str "true")) ∈
      registerAttrs email firstName lastName :=
  List.mem_append_left _ (List.mem_append_left _ (List.Mem.tail _ (List.Mem.head _)))

/-- Every AdminCreateUser command in the register handler's call record
carries an attribute list the handler built. -/
theorem registerRun_createUser (ev : Event) (ctx : Ctx) (pid : String) (u : JsVal)
    (attrs : List (String × JsVal)) (ma : String) (tp : JsVal)
    (hmem : ProviderCall.adminCreateUser pid u attrs ma tp ∈ (registerRun ev ctx).2) :
    ∃ f l, attrs = registerAttrs u f l := by
  revert hmem
  unfold registerRun
  cases hprep : registerPrep ev with
  | error e => simp
  | ok q =>
    obtain ⟨email, firstName, lastName, password⟩ := q
    simp only
    intro hmem
    split at hmem
    · rw [List.mem_singleton] at hmem
      cases hmem
      exact ⟨firstName, lastName, rfl⟩
    · split at hmem
      · rcases List.mem_cons.mp hmem with hc | hc
        · cases hc
          exact ⟨firstName, lastName, rfl⟩
        · rw [List.mem_singleton] at hc
          cases hc
      · rcases List.mem_cons.mp hmem with hc | hc
        · cases hc
          exact ⟨firstName, lastName, rfl⟩
        · rw [List.mem_singleton] at hc
          cases hc

/-- C10: every AdminCreateUser command the register handler sends to the
provider carries the attribute email_verified with value "true",
unconditionally. -/
theorem register_email_verified (ev : Event) (ctx : Ctx) (pid : String) (u : JsVal)
    (attrs : List (String × JsVal)) (ma : String) (tp : JsVal)
    (hmem : ProviderCall.adminCreateUser pid u attrs ma tp ∈ (register ev ctx).2) :
    ("email_verified", JsVal.val (Json.str "true")) ∈ attrs := by
  rw [show register ev ctx = runHandler registerDef ev ctx from rfl,
    runHandler_calls registerDef ev ctx] at hmem
  obtain ⟨f, l, rfl⟩ := registerRun_createUser ev ctx pid u attrs ma tp hmem
  exact mem_registerAttrs u f l

/-- C10 witness: a concrete successful registration sends AdminCreateUser
with email_verified = "true" among its attributes. -/
theorem register_email_verified_witness :
    ("email_verified", JsVal.val (Json.str "true")) ∈
      [("email", JsVal.val (Json.str "a@b.c")),
       ("email_verified", JsVal.val (Json.str "true"))] :=
  register_email_verified
    ⟨⟨none, none⟩, some "\x7b\"email\":\"a@b.c\",\"password\":\"pw\"\x7d"⟩
    ⟨0, fun _ => none, fun _ _ => .ok ⟨none, none, none, none, none, none, none⟩,
      "pool-1", "client-1"⟩
    "pool-1" (JsVal.val (Json.str "a@b.c"))
    [("email", JsVal.val (Json.str "a@b.c")),
     ("email_verified", JsVal.val (Json.str "true"))]
    "SUPPRESS" (JsVal.val (Json.str "pw"))
    (List.Mem.head _)

/-- With at least one required field absent or falsy in an object body,
validateRequiredFields throws the enumerating Error. -/
theorem validateRequiredFields_fails (kvs : List (String × Json)) (fields : List String)
    (h : missingOf kvs fields ≠ []) :
    validateRequiredFields (Json.obj kvs) fields =
      .error (newError ("Missing required fields: " ++
        String.intercalate ", " (missingOf kvs fields))) := by
  rw [validateRequiredFields, filterMissing_obj]
  cases hm : missingOf kvs fields with
  | nil => exact absurd hm h
  | cons m ms => rfl

/-- The INTERNAL_ERROR response with given details, as the catch blocks
build it for an unrecognized Error. -/
theorem mapCaught_unrecognized (table : List CatchRule) (n m : String)
    (hn : ∀ r ∈ table, r.name ≠ n) :
    mapCaught table (.js ⟨n, m⟩) =
      createErrorResponse 500 "INTERNAL_ERROR" "Internal server error"
        (some (.str m)) := by
  have hfind : table.find? (fun r => r.name == n) = none :=
    List.find?_eq_none.mpr (fun x hx => by simp [hn x hx])
  simp only [mapCaught]
  rw [hfind]

/-- C3 counterexample: a login request whose body is missing email and
password returns status 500 with INTERNAL_ERROR, not a 400
field-validation error. -/
theorem login_missing_fields_counterexample :
    (login ⟨⟨none, none⟩, some "\x7b\x7d"⟩
      ⟨0, fun _ => none, fun _ _ => .error .nonError, "pool-1", "client-1"⟩).1.statusCode = 500 ∧
    (login ⟨⟨none, none⟩, some "\x7b\x7d"⟩
      ⟨0, fun _ => none, fun _ _ => .error .nonError, "pool-1", "client-1"⟩).1.statusCode ≠ 400 ∧
    errCode (login ⟨⟨none, none⟩, some "\x7b\x7d"⟩
      ⟨0, fun _ => none, fun _ _ => .error .nonError, "pool-1", "client-1"⟩).1 =
      some "INTERNAL_ERROR" := by
  refine ⟨rfl, ?_, rfl⟩
  intro hc
  rw [show (login ⟨⟨none, none⟩, some "\x7b\x7d"⟩
    ⟨0, fun _ => none, fun _ _ => .error .nonError, "pool-1", "client-1"⟩).1.statusCode = 500
    from rfl] at hc
  exact absurd hc (by decide)

/-- C3 as amended: a request to login, register, refresh or
change-password with a required body field absent or falsy yields the 500
INTERNAL_ERROR response whose details enumerate the missing fields (the
thrown field-validation Error matches no catch-table entry), with no
provider command sent. -/
theorem missing_fields_yield_internal_error (ev : Event) (ctx : Ctx)
    (kvs : List (String × Json))
    (hb : parseRequestBody ev = Except.ok (Json.obj kvs)) :
    (missingOf kvs ["email", "password"] ≠ [] →
      login ev ctx = (createErrorResponse 500 "INTERNAL_ERROR" "Internal server error"
        (some (.str ("Missing required fields: " ++
          String.intercalate ", " (missingOf kvs ["email", "password"])))), []) ∧
      register ev ctx = (createErrorResponse 500 "INTERNAL_ERROR" "Internal server error"
        (some (.str ("Missing required fields: " ++
          String.intercalate ", " (missingOf kvs ["email", "password"])))), [])) ∧
    (missingOf kvs ["refreshToken"] ≠ [] →
      refreshToken ev ctx = (createErrorResponse 500 "INTERNAL_ERROR" "Internal server error"
        (some (.str ("Missing required fields: " ++
          String.intercalate ", " (missingOf kvs ["refreshToken"])))), [])) ∧
    (∀ tok p, getAuthHeader ev = Except.ok tok → ctx.decode tok = some p →
      missingOf kvs ["oldPassword", "newPassword"] ≠ [] →
      changePassword ev ctx = (createErrorResponse 500 "INTERNAL_ERROR" "Internal server error"
        (some (.str ("Missing required fields: " ++
          String.intercalate ", " (missingOf kvs ["oldPassword", "newPassword"])))), [])) := by
  refine ⟨fun h => ⟨?_, ?_⟩, fun h => ?_, fun tok p hh hd h => ?_⟩
  · have hval := validateRequiredFields_fails kvs ["email", "password"] h
    have hrun : loginRun ev ctx =
        (.error (newError ("Missing required fields: " ++
          String.intercalate ", " (missingOf kvs ["email", "password"]))), []) := by
      simp [loginRun, loginPrep, hb, hval]
    have hmap := mapCaught_unrecognized loginTable "Error"
      ("Missing required fields: " ++
        String.intercalate ", " (missingOf kvs ["email", "password"]))
      (by decide)
    simp [login, runHandler, loginDef, hrun, newError] at hmap ⊢
    rw [hmap]
  · have hval := validateRequiredFields_fails kvs ["email", "password"] h
    have hrun : registerRun ev ctx =
        (.error (newError ("Missing required fields: " ++
          String.intercalate ", " (missingOf kvs ["email", "password"]))), []) := by
      simp [registerRun, registerPrep, hb, hval]
    have hmap := mapCaught_unrecognized registerTable "Error"
      ("Missing required fields: " ++
        String.intercalate ", " (missingOf kvs ["email", "password"]))
      (by decide)
    simp [register, runHandler, registerDef, hrun, newError] at hmap ⊢
    rw [hmap]
  · have hval := validateRequiredFields_fails kvs ["refreshToken"] h
    have hrun : refreshTokenRun ev ctx =
        (.error (newError ("Missing required fields: " ++
          String.intercalate ", " (missingOf kvs ["refreshToken"]))), []) := by
      simp [refreshTokenRun, refreshTokenPrep, hb, hval]
    have hmap := mapCaught_unrecognized refreshTokenTable "Error"
      ("Missing required fields: " ++
        String.intercalate ", " (missingOf kvs ["refreshToken"]))
      (by decide)
    simp [refreshToken, runHandler, refreshTokenDef, hrun, newError] at hmap ⊢
    rw [hmap]
  · have hval := validateRequiredFields_fails kvs ["oldPassword", "newPassword"] h
    have hrun : changePasswordRun ev ctx =
        (.error (newError ("Missing required fields: " ++
          String.intercalate ", " (missingOf kvs ["oldPassword", "newPassword"]))), []) := by
      simp [changePasswordRun, hh, getUserFromToken, hd, hb, hval]
    have hmap := mapCaught_unrecognized changePasswordTable "Error"
      ("Missing required fields: " ++
        String.intercalate ", " (missingOf kvs ["oldPassword", "newPassword"]))
      (by decide)
    simp [changePassword, runHandler, changePasswordDef, hrun, newError] at hmap ⊢
    rw [hmap]

/-- C3 amended-claim witness: register with an empty body yields the 500
INTERNAL_ERROR response listing email and password. -/
theorem missing_fields_yield_internal_error_witness :
    register ⟨⟨none, none⟩, some "\x7b\x7d"⟩
      ⟨0, fun _ => none, fun _ _ => .error .nonError, "pool-1", "client-1"⟩ =
      (createErrorResponse 500 "INTERNAL_ERROR" "Internal server error"
        (some (.str "Missing required fields: email, password")), []) :=
  ((missing_fields_yield_internal_error ⟨⟨none, none⟩, some "\x7b\x7d"⟩
    ⟨0, fun _ => none, fun _ _ => .error .nonError, "pool-1", "client-1"⟩
    [] rfl).1 (by decide)).2

/-! C2: totality and the INTERNAL_ERROR fallback, across all nine
handlers. -/

/-- A well-formed envelope: the fixed header set and a JSON object
body. -/
def wellFormed (r : ApiResponse) : Prop :=
  r.headers = defaultHeaders ∧ ∃ kvs, r.body = Json.obj kvs

/-- createResponse with an object payload is well-formed. -/
theorem wellFormed_createResponse (st : Int) (kvs : List (String × Json)) :
    wellFormed (createResponse st (.obj kvs) []) :=
  ⟨rfl, kvs, rfl⟩

/-- createErrorResponse is well-formed. -/
theorem wellFormed_createErrorResponse (st : Int) (c m : String) (d : Option Json) :
    wellFormed (createErrorResponse st c m d) :=
  ⟨rfl, _, rfl⟩

/-- Every catch-block response is well-formed. -/
theorem wellFormed_mapCaught (table : List CatchRule) (e : JsThrown) :
    wellFormed (mapCaught table e) := by
  cases e with
  | js e =>
    simp only [mapCaught]
    cases table.find? (fun r => r.name == e.name) with
    | none => exact wellFormed_createErrorResponse _ _ _ _
    | some r => exact wellFormed_createErrorResponse _ _ _ _
  | nonError => exact wellFormed_createErrorResponse _ _ _ _

/-- Every successful response of the login try-block is well-formed. -/
theorem loginRun_ok (ev : Event) (ctx : Ctx) (r : ApiResponse) (calls : List ProviderCall)
    (h : loginRun ev ctx = (Except.ok r, calls)) : wellFormed r := by
  simp only [loginRun] at h
  repeat' split at h
  all_goals
    injection h with h1 h2
  all_goals
    first
    | exact Except.noConfusion h1
    | (injection h1 with h3
       rw [← h3]
       first
       | exact wellFormed_createErrorResponse _ _ _ _
       | exact wellFormed_createResponse _ _)

/-- Every successful response of the register try-block is well-formed. -/
theorem registerRun_ok (ev : Event) (ctx : Ctx) (r : ApiResponse) (calls : List ProviderCall)
    (h : registerRun ev ctx = (Except.ok r, calls)) : wellFormed r := by
  simp only [registerRun] at h
  repeat' split at h
  all_goals
    injection h with h1 h2
  all_goals
    first
    | exact Except.noConfusion h1
    | (injection h1 with h3
       rw [← h3]
       first
       | exact wellFormed_createErrorResponse _ _ _ _
       | exact wellFormed_createResponse _ _)

/-- Every successful response of the refresh try-block is well-formed. -/
theorem refreshTokenRun_ok (ev : Event) (ctx : Ctx) (r : ApiResponse) (calls : List ProviderCall)
    (h : refreshTokenRun ev ctx = (Except.ok r, calls)) : wellFormed r := by
  simp only [refreshTokenRun] at h
  repeat' split at h
  all_goals
    injection h with h1 h2
  all_goals
    first
    | exact Except.noConfusion h1
    | (injection h1 with h3
       rw [← h3]
       first
       | exact wellFormed_createErrorResponse _ _ _ _
       | exact wellFormed_createResponse _ _)

/-- The logout try-block's response is well-formed. -/
theorem logoutRun_ok (ev : Event) (ctx : Ctx) (r : ApiResponse) (calls : List ProviderCall)
    (h : logoutRun ev ctx = (Except.ok r, calls)) : wellFormed r := by
  injection h with h1 h2
  injection h1 with h3
  rw [← h3]
  exact wellFormed_createResponse _ _

/-- Every successful response of the validate try-block is well-formed. -/
theorem validateRun_ok (ev : Event) (ctx : Ctx) (r : ApiResponse) (calls : List ProviderCall)
    (h : validateRun ev ctx = (Except.ok r, calls)) : wellFormed r := by
  simp only [validateRun] at h
  injection h with h1 h2
  simp only [validateRes] at h1
  repeat' split at h1
  all_goals
    first
    | exact Except.noConfusion h1
    | (injection h1 with h3
       rw [← h3]
       first
       | exact wellFormed_createErrorResponse _ _ _ _
       | exact wellFormed_createResponse _ _)

/-- Every successful response of the getUser try-block is well-formed. -/
theorem getUserRun_ok (ev : Event) (ctx : Ctx) (r : ApiResponse) (calls : List ProviderCall)
    (h : getUserRun ev ctx = (Except.ok r, calls)) : wellFormed r := by
  simp only [getUserRun] at h
  repeat' split at h
  all_goals
    injection h with h1 h2
  all_goals
    first
    | exact Except.noConfusion h1
    | (injection h1 with h3
       rw [← h3]
       first
       | exact wellFormed_createErrorResponse _ _ _ _
       | exact wellFormed_createResponse _ _)

/-- Every successful response of the updateUser try-block is
well-formed. -/
theorem updateUserRun_ok (ev : Event) (ctx : Ctx) (r : ApiResponse) (calls : List ProviderCall)
    (h : updateUserRun ev ctx = (Except.ok r, calls)) : wellFormed r := by
  simp only [updateUserRun] at h
  repeat' split at h
  all_goals
    injection h with h1 h2
  all_goals
    first
    | exact Except.noConfusion h1
    | (injection h1 with h3
       rw [← h3]
       first
       | exact wellFormed_createErrorResponse _ _ _ _
       | exact wellFormed_createResponse _ _)

/-- Every successful response of the deleteUser try-block is
well-formed. -/
theorem deleteUserRun_ok (ev : Event) (ctx : Ctx) (r : ApiResponse) (calls : List ProviderCall)
    (h : deleteUserRun ev ctx = (Except.ok r, calls)) : wellFormed r := by
  simp only [deleteUserRun] at h
  repeat' split at h
  all_goals
    injection h with h1 h2
  all_goals
    first
    | exact Except.noConfusion h1
    | (injection h1 with h3
       rw [← h3]
       first
       | exact wellFormed_createErrorResponse _ _ _ _
       | exact wellFormed_createResponse _ _)

/-- Every successful response of the changePassword try-block is
well-formed. -/
theorem changePasswordRun_ok (ev : Event) (ctx : Ctx) (r : ApiResponse) (calls : List ProviderCall)
    (h : changePasswordRun ev ctx = (Except.ok r, calls)) : wellFormed r := by
  simp only [changePasswordRun] at h
  repeat' split at h
  all_goals
    injection h with h1 h2
  all_goals
    first
    | exact Except.noConfusion h1
    | (injection h1 with h3
       rw [← h3]
       first
       | exact wellFormed_createErrorResponse _ _ _ _
       | exact wellFormed_createResponse _ _)

/-- C2: every handler, on every input and every provider outcome
(thrown provider errors included), returns a well-formed envelope — no
failure escapes the handler boundary — and any thrown failure whose name
matches no entry of the handler's catch table yields the 500
INTERNAL_ERROR response with the underlying message attached as
details. -/
theorem handlers_catch_all (h : HandlerDef) (hmem : h ∈ allHandlers)
    (ev : Event) (ctx : Ctx) :
    wellFormed (runHandler h ev ctx).1 ∧
    (∀ n m calls, h.run ev ctx = (Except.error (.js ⟨n, m⟩), calls) →
      (∀ rule ∈ h.table, rule.name ≠ n) →
      runHandler h ev ctx =
        (createErrorResponse 500 "INTERNAL_ERROR" "Internal server error"
          (some (.str m)), calls)) := by
  constructor
  · rcases hr : h.run ev ctx with ⟨ex, calls⟩
    cases ex with
    | error e =>
      have hrh : runHandler h ev ctx = (mapCaught h.table e, calls) := by
        unfold runHandler
        rw [hr]
      rw [hrh]
      exact wellFormed_mapCaught _ _
    | ok r =>
      have hrh : runHandler h ev ctx = (r, calls) := by
        unfold runHandler
        rw [hr]
      rw [hrh]
      fin_cases hmem
      · exact loginRun_ok ev ctx r calls hr
      · exact registerRun_ok ev ctx r calls hr
      · exact refreshTokenRun_ok ev ctx r calls hr
      · exact logoutRun_ok ev ctx r calls hr
      · exact validateRun_ok ev ctx r calls hr
      · exact getUserRun_ok ev ctx r calls hr
      · exact updateUserRun_ok ev ctx r calls hr
      · exact deleteUserRun_ok ev ctx r calls hr
      · exact changePasswordRun_ok ev ctx r calls hr
  · intro n m calls hrun hn
    have hmap := mapCaught_unrecognized h.table n m hn
    unfold runHandler
    rw [hrun]
    exact congrArg (fun x => (x, calls)) hmap

/-- C2 witness: a login whose provider throws an unrecognized error name
returns the 500 INTERNAL_ERROR envelope carrying that error's message. -/
theorem handlers_catch_all_witness :
    runHandler loginDef ⟨⟨none, none⟩, some "\x7b\"email\":\"a@b.c\",\"password\":\"pw\"\x7d"⟩
      ⟨0, fun _ => none,
        fun _ _ => .error (.js ⟨"WeirdException", "provider exploded"⟩),
        "pool-1", "client-1"⟩ =
      (createErrorResponse 500 "INTERNAL_ERROR" "Internal server error"
        (some (.str "provider exploded")),
       [ProviderCall.adminInitiateAuth "pool-1" "client-1" "ADMIN_NO_SRP_AUTH"
         [("USERNAME", JsVal.val (.str "a@b.c")), ("PASSWORD", JsVal.val (.str "pw"))]]) :=
  (handlers_catch_all loginDef (List.Mem.head _)
    ⟨⟨none, none⟩, some "\x7b\"email\":\"a@b.c\",\"password\":\"pw\"\x7d"⟩
    ⟨0, fun _ => none,
      fun _ _ => .error (.js ⟨"WeirdException", "provider exploded"⟩),
      "pool-1", "client-1"⟩).2
    "WeirdException" "provider exploded"
    [ProviderCall.adminInitiateAuth "pool-1" "client-1" "ADMIN_NO_SRP_AUTH"
      [("USERNAME", JsVal.val (.str "a@b.c")), ("PASSWORD", JsVal.val (.str "pw"))]]
    rfl (by decide)

end AuthServer
